import Mathlib

/-!
Shallow embedding of `StructuredOutputComponent.build_structured_output` from
`src/backend/base/langflow/components/helpers/structured_output.py`, together
with models of the record types it synthesizes (via pydantic `create_model` /
`build_model_from_schema`) and the validated instances the bound language-model
client returns.  The external model client is abstracted as an oracle
`chat : BoundInvocation → ModelOutput`; the function returns, next to its
result, the list of invocation requests actually issued, so that "fails before
any model invocation" is a statement about that trace.
-/

namespace StructuredOutput

/-- One row of the `output_schema` table input: the user-declared Field
Specification.  The source column named `type` is rendered `ftype` because
`type` is a Lean keyword. -/
structure FieldSpec where
  name : String
  description : String
  ftype : String
  multiple : Bool
deriving DecidableEq

/-- The fixed set of declarable primitive/collection types
(`str, int, float, bool, list, dict`). -/
inductive BaseType where
  | tstr
  | tint
  | tfloat
  | tbool
  | tlist
  | tdict
deriving DecidableEq

/-- The type of a record member: the declared primitive, or (when the
`multiple` flag of the row is true) a homogeneous sequence of it. -/
inductive FieldType where
  | single (t : BaseType)
  | listOf (t : BaseType)
deriving DecidableEq

/-- A member of a synthesized runtime record type: name, documentation
description, and type. -/
structure ModelField where
  name : String
  description : String
  ty : FieldType
deriving DecidableEq

/-- A runtime record type synthesized from the Output Schema (the pydantic
model built by `build_model_from_schema`). -/
structure ModelType where
  name : String
  fields : List ModelField
deriving DecidableEq

/-- The type of a field of the target type handed to the model client: either
a plain field type, or a sequence of instances of an inner record type (the
`objects` field of the multiplicity envelope). -/
inductive PyFieldType where
  | plain (t : FieldType)
  | listOfModel (m : ModelType)
deriving DecidableEq

/-- A member of the target type bound to the model client. -/
structure TargetField where
  name : String
  description : String
  ty : PyFieldType
deriving DecidableEq

/-- The target type bound to the model client: the runtime record type itself,
or the multiplicity envelope around it. -/
structure TargetModel where
  name : String
  fields : List TargetField
deriving DecidableEq

/-- JSON-like runtime values produced by the model client.  Numeric values are
represented by integers (`jint` satisfies both the `int` and `float` declared
types); no claim depends on non-integral numerics. -/
inductive JValue where
  | jstr (s : String)
  | jint (n : Int)
  | jbool (b : Bool)
  | jlist (xs : List JValue)
  | jobj (kvs : List (String × JValue))

/-- Parse the user-declared type string into a `BaseType`.  The admissible
spellings are the ones documented by the table input of the component
(`str, int, float, bool, list, dict`). -/
def parseType (s : String) : Option BaseType :=
  match s with
  | "str" => some .tstr
  | "int" => some .tint
  | "float" => some .tfloat
  | "bool" => some .tbool
  | "list" => some .tlist
  | "dict" => some .tdict
  | _ => none

/-- Modelled from the spec: one row of the Schema Builder.  The row becomes a
record member named per the Field Specification, typed per the declared
primitive (or a sequence of it when the `multiple` flag of the row is true), and
carries the description; an unsupported declared type fails fast with a
descriptive error (spec section 4.1). -/
def buildField (f : FieldSpec) : Except String ModelField :=
  match parseType f.ftype with
  | some t =>
      .ok { name := f.name, description := f.description,
            ty := if f.multiple then .listOf t else .single t }
  | none =>
      let s := f.ftype
      .error ("Invalid type: " ++ s)

/-- Modelled from the spec: the Schema Builder over a whole Field Specification
sequence, preserving order; fails on the first unsupported row. -/
def buildFields : List FieldSpec → Except String (List ModelField)
  | [] => .ok []
  | f :: fs =>
      match buildField f with
      | .error e => .error e
      | .ok mf =>
          match buildFields fs with
          | .error e => .error e
          | .ok mfs => .ok (mf :: mfs)

/-- Modelled from the spec: `build_model_from_schema`
(`langflow.helpers.base_model`, not under `src/`).  Per spec section 4.1 it is
a pure transformation of the ordered Field Specification sequence into a
runtime record type; the own name of the synthesized type is not user-controlled. -/
def build_model_from_schema (schema : List FieldSpec) : Except String ModelType :=
  match buildFields schema with
  | .ok mfs => .ok { name := "OutputModel", fields := mfs }
  | .error e => .error e

/-- View a runtime record type as a target type (the `multiple = false` case:
the wrapper is a no-op and the record type itself is bound). -/
def asTarget (m : ModelType) : TargetModel :=
  { name := m.name,
    fields := m.fields.map fun f =>
      { name := f.name, description := f.description, ty := .plain f.ty } }

/-- The multiplicity envelope built by
`create_model(self.schema_name, objects=(list[_output_model],
Field(description=f"A list of {self.schema_name}.")))`: an outer record type
named after `schema_name` with the single sequence-valued field `objects`. -/
def wrapMultiple (n : String) (inner : ModelType) : TargetModel :=
  { name := n,
    fields := [{ name := "objects",
                 description := "A list of " ++ n ++ ".",
                 ty := .listOfModel inner }] }

/-- Does a value inhabit a declared primitive type?  Mirrors the
enforcement by the structured-decoding client of the JSON schema. -/
def valueOfBase : JValue → BaseType → Bool
  | .jstr _, .tstr => true
  | .jint _, .tint => true
  | .jint _, .tfloat => true
  | .jbool _, .tbool => true
  | .jlist _, .tlist => true
  | .jobj _, .tdict => true
  | _, _ => false

/-- Does a value inhabit the type of a record member? -/
def valueOfField (v : JValue) : FieldType → Bool
  | .single t => valueOfBase v t
  | .listOf t =>
      match v with
      | .jlist xs => xs.all fun x => valueOfBase x t
      | _ => false

/-- A validated instance of a runtime record type, represented by its
field-name-to-value mapping in declaration order (pydantic keeps field
declaration order in instances and dumps). -/
def instValidates : List (String × JValue) → List ModelField → Bool
  | [], [] => true
  | (k, v) :: kvs, f :: fs =>
      (k == f.name && valueOfField v f.ty) && instValidates kvs fs
  | _, _ => false

/-- Is a value a validated instance of the inner record type? -/
def isValidInner (m : ModelType) (v : JValue) : Bool :=
  match v with
  | .jobj kvs => instValidates kvs m.fields
  | _ => false

/-- Does a value inhabit the type of a target-type field? -/
def valueOfTargetField (v : JValue) : PyFieldType → Bool
  | .plain t => valueOfField v t
  | .listOfModel m =>
      match v with
      | .jlist xs => xs.all (isValidInner m)
      | _ => false

/-- A validated instance of the target type bound to the client, again as its
field-name-to-value mapping in declaration order. -/
def instTargetValidates : List (String × JValue) → List TargetField → Bool
  | [], [] => true
  | (k, v) :: kvs, f :: fs =>
      (k == f.name && valueOfTargetField v f.ty) && instTargetValidates kvs fs
  | _, _ => false

/-- The invocation configuration forwarded to `get_chat_result`
(`config_dict` in the source). -/
structure InvokeConfig where
  run_name : String
  project_name : String
  callbacks : List String
deriving DecidableEq

/-- One request issued to the bound model client: the target type and decoding
method passed to `with_structured_output`, plus the input text and the
forwarded configuration passed to `get_chat_result`. -/
structure BoundInvocation where
  schema : TargetModel
  method : String
  input_value : String
  config : InvokeConfig
deriving DecidableEq

/-- What the model client hands back: either an instance of the pydantic
`BaseModel` base type (represented by its dumped field mapping), or a raw
value that is not a `BaseModel`. -/
inductive ModelOutput where
  | baseModel (fields : List (String × JValue))
  | raw (v : JValue)

/-- `BaseModel.model_dump`: a validated instance is represented by its
field-name-to-value mapping in declaration order, and dumping returns exactly
that mapping (nested models are already in mapping form here). -/
def model_dump (inst : List (String × JValue)) : List (String × JValue) :=
  inst

/-- The generic data record returned to the host (`Data(data=output_dict)`). -/
structure Data where
  data : List (String × JValue)

/-- The errors `build_structured_output` can raise: the Python `TypeError`
(capability error), `ValueError` (validation / shape errors), and the error
propagated from the Schema Builder on an unsupported declared type. -/
inductive BuildError where
  | typeError (msg : String)
  | valueError (msg : String)
  | schemaBuildError (msg : String)
deriving DecidableEq

/-- The host-bound inputs of the component and context: the capability bit of the
`llm` handle (`hasattr(self.llm, "with_structured_output")`), the input text,
the schema name, the Output Schema rows, the global `multiple` flag, and the
host-supplied display name / project name / callback list. -/
structure Ctx where
  llm_has_structured_output : Bool
  input_value : String
  schema_name : String
  output_schema : List FieldSpec
  multiple : Bool
  display_name : String
  project_name : String
  callbacks : List String

/-- The single request `build_structured_output` issues once it reaches the
model invocation, given the runtime record type `om` built from the schema:
target type per the `multiple` flag, `json_schema` decoding, and the forwarded
host context. -/
def boundRequest (ctx : Ctx) (om : ModelType) : BoundInvocation :=
  { schema := if ctx.multiple then wrapMultiple ctx.schema_name om else asTarget om,
    method := "json_schema",
    input_value := ctx.input_value,
    config := { run_name := ctx.display_name,
                project_name := ctx.project_name,
                callbacks := ctx.callbacks } }

/-- `StructuredOutputComponent.build_structured_output`, with the external
model client abstracted as the oracle `chat`.  Returns the result (the `Data`
record or the raised error) together with the list of model invocations
actually issued, in order. -/
def build_structured_output (ctx : Ctx) (chat : BoundInvocation → ModelOutput) :
    Except BuildError Data × List BoundInvocation :=
  if ctx.llm_has_structured_output = false then
    (.error (.typeError "Language model does not support structured output."), [])
  else if ctx.output_schema.isEmpty then
    (.error (.valueError "Output schema cannot be empty"), [])
  else
    match build_model_from_schema ctx.output_schema with
    | .error e => (.error (.schemaBuildError e), [])
    | .ok om =>
        let req := boundRequest ctx om
        match chat req with
        | .baseModel inst => (.ok { data := model_dump inst }, [req])
        | .raw _ => (.error (.valueError "Output is not a BaseModel."), [req])

/-- Classifier: is the result the Python `ValueError` (the validation /
shape error class), as opposed to the `TypeError` capability error? -/
def isValueError : Except BuildError Data → Bool
  | .error (.valueError _) => true
  | _ => false

/-- Pointwise structural equivalence of field lists. -/
def fieldsEquiv : List ModelField → List ModelField → Bool
  | [], [] => true
  | x :: xs, y :: ys => decide (x = y) && fieldsEquiv xs ys
  | _, _ => false

/-- Structural equivalence of two runtime record types: same type name and
pointwise equal members (name, description, type).  In this embedding runtime
types are structural descriptions, so equivalence does not depend on any
object identity. -/
def structEquiv (a b : ModelType) : Bool :=
  decide (a.name = b.name) && fieldsEquiv a.fields b.fields

/-! Concrete inputs used to instantiate the theorems: the Book scenario of the
spec, a client without the structured-output capability, an empty schema, and
an empty schema name. -/

/-- The Output Schema of the Book scenario in the spec. -/
def bookSchema : List FieldSpec :=
  [{ name := "title", description := "The book title.", ftype := "str", multiple := false },
   { name := "year", description := "The publication year.", ftype := "int", multiple := false }]

/-- The runtime record type the Schema Builder produces for `bookSchema`. -/
def bookModel : ModelType :=
  { name := "OutputModel",
    fields := [{ name := "title", description := "The book title.", ty := .single .tstr },
               { name := "year", description := "The publication year.", ty := .single .tint }] }

/-- The validated Dune instance of the Book scenario. -/
def duneInst : List (String × JValue) :=
  [("title", .jstr "Dune"), ("year", .jint 1965)]

/-- The validated Foundation instance of the Book scenario. -/
def foundationInst : List (String × JValue) :=
  [("title", .jstr "Foundation"), ("year", .jint 1951)]

/-- The validated envelope instance of the multiple-Book scenario. -/
def objectsInst : List (String × JValue) :=
  [("objects", .jlist [.jobj duneInst, .jobj foundationInst])]

/-- Host context of the single-Book scenario. -/
def ctxBook : Ctx :=
  { llm_has_structured_output := true, input_value := "Name a science fiction book.",
    schema_name := "Book", output_schema := bookSchema, multiple := false,
    display_name := "Structured Output", project_name := "proj", callbacks := ["cb"] }

/-- Host context of the multiple-Book scenario. -/
def ctxBookMulti : Ctx :=
  { ctxBook with multiple := true }

/-- Model client of the single-Book scenario. -/
def chatBook : BoundInvocation → ModelOutput := fun _ => .baseModel duneInst

/-- Model client of the multiple-Book scenario. -/
def chatBooks : BoundInvocation → ModelOutput := fun _ => .baseModel objectsInst

/-- A model client handle that always answers with a raw value; its answers
are irrelevant for the error paths it instantiates. -/
def chatNone : BoundInvocation → ModelOutput := fun _ => .raw (.jstr "")

/-- Host context whose model client lacks the structured-output capability
and whose Output Schema is empty. -/
def ctxNoCap : Ctx :=
  { llm_has_structured_output := false, input_value := "", schema_name := "S",
    output_schema := [], multiple := false, display_name := "Structured Output",
    project_name := "proj", callbacks := [] }

/-- Host context with the capability present but an empty Output Schema. -/
def ctxEmptyCap : Ctx :=
  { ctxNoCap with llm_has_structured_output := true }

/-- Host context with an empty `schema_name`, `multiple = true`, and a
one-field schema. -/
def ctxEmptyName : Ctx :=
  { llm_has_structured_output := true, input_value := "Name a book.",
    schema_name := "", output_schema := [{ name := "title", description := "The book title.",
                                           ftype := "str", multiple := false }],
    multiple := true, display_name := "Structured Output", project_name := "proj",
    callbacks := [] }

/-- The runtime record type built from the one-field schema of `ctxEmptyName`. -/
def titleModel : ModelType :=
  { name := "OutputModel",
    fields := [{ name := "title", description := "The book title.", ty := .single .tstr }] }

/-- Model client used with `ctxEmptyName`: returns an empty envelope. -/
def chatEmptyName : BoundInvocation → ModelOutput := fun _ => .baseModel [("objects", .jlist [])]

/-! Helper lemmas. -/

/-- A successful Schema Builder row keeps the field name of the row. -/
theorem buildField_name (f : FieldSpec) (mf : ModelField) (h : buildField f = .ok mf) :
    mf.name = f.name := by
  unfold buildField at h
  cases hp : parseType f.ftype with
  | none => rw [hp] at h; simp at h
  | some t => rw [hp] at h; injection h with h; subst h; rfl

/-- A successful Schema Builder run preserves the declared field names, in
order. -/
theorem buildFields_names : ∀ (s : List FieldSpec) (mfs : List ModelField),
    buildFields s = .ok mfs → mfs.map ModelField.name = s.map FieldSpec.name := by
  intro s
  induction s with
  | nil =>
      intro mfs h
      unfold buildFields at h
      injection h with h
      subst h
      rfl
  | cons f fs ih =>
      intro mfs h
      unfold buildFields at h
      cases hf : buildField f with
      | error e => rw [hf] at h; simp at h
      | ok mf =>
          rw [hf] at h
          cases hfs : buildFields fs with
          | error e => rw [hfs] at h; simp at h
          | ok tail =>
              rw [hfs] at h
              injection h with h
              subst h
              simp [buildField_name f mf hf, ih tail hfs]

/-- The member names of the synthesized record type are exactly the Field
Specification names, in order. -/
theorem build_model_from_schema_names (s : List FieldSpec) (m : ModelType)
    (h : build_model_from_schema s = .ok m) :
    m.fields.map ModelField.name = s.map FieldSpec.name := by
  unfold build_model_from_schema at h
  cases hb : buildFields s with
  | error e => rw [hb] at h; simp at h
  | ok mfs =>
      rw [hb] at h
      injection h with h
      subst h
      exact buildFields_names s mfs hb

/-- Viewing a record type as a target type keeps the member names. -/
theorem asTarget_names (m : ModelType) :
    (asTarget m).fields.map TargetField.name = m.fields.map ModelField.name := by
  simp [asTarget]

/-- A validated instance of a record type has exactly the member names of the
type as its keys, in order. -/
theorem instValidates_keys : ∀ (kvs : List (String × JValue)) (mfs : List ModelField),
    instValidates kvs mfs = true → kvs.map Prod.fst = mfs.map ModelField.name := by
  intro kvs
  induction kvs with
  | nil =>
      intro mfs h
      cases mfs with
      | nil => rfl
      | cons f fs => simp [instValidates] at h
  | cons kv kvs ih =>
      intro mfs h
      obtain ⟨k, v⟩ := kv
      cases mfs with
      | nil => simp [instValidates] at h
      | cons f fs =>
          simp only [instValidates, Bool.and_eq_true, beq_iff_eq] at h
          obtain ⟨⟨hk, -⟩, htl⟩ := h
          simp [hk, ih fs htl]

/-- A validated instance of a target type has exactly the member names of the
type as its keys, in order. -/
theorem instTargetValidates_keys : ∀ (kvs : List (String × JValue)) (tfs : List TargetField),
    instTargetValidates kvs tfs = true → kvs.map Prod.fst = tfs.map TargetField.name := by
  intro kvs
  induction kvs with
  | nil =>
      intro tfs h
      cases tfs with
      | nil => rfl
      | cons f fs => simp [instTargetValidates] at h
  | cons kv kvs ih =>
      intro tfs h
      obtain ⟨k, v⟩ := kv
      cases tfs with
      | nil => simp [instTargetValidates] at h
      | cons f fs =>
          simp only [instTargetValidates, Bool.and_eq_true, beq_iff_eq] at h
          obtain ⟨⟨hk, -⟩, htl⟩ := h
          simp [hk, ih fs htl]

/-- A validated instance of a target type whose single member is
sequence-of-inner-record-typed is a singleton mapping holding a sequence of
validated inner instances. -/
theorem instTargetValidates_single_list (inst : List (String × JValue))
    (f : TargetField) (om : ModelType)
    (hty : f.ty = .listOfModel om)
    (h : instTargetValidates inst [f] = true) :
    ∃ xs, inst = [(f.name, JValue.jlist xs)] ∧ ∀ v ∈ xs, isValidInner om v = true := by
  match inst with
  | [] => simp [instTargetValidates] at h
  | (k, v) :: (kv2 :: rest) =>
      simp only [instTargetValidates, Bool.and_eq_true] at h
      obtain ⟨-, htl⟩ := h
      simp [instTargetValidates] at htl
  | [(k, v)] =>
      simp only [instTargetValidates, Bool.and_eq_true, beq_iff_eq] at h
      obtain ⟨⟨hk, hv⟩, -⟩ := h
      rw [hty] at hv
      cases v with
      | jlist xs =>
          refine ⟨xs, by rw [hk], ?_⟩
          simp only [valueOfTargetField, List.all_eq_true] at hv
          exact hv
      | jstr s => simp [valueOfTargetField] at hv
      | jint n => simp [valueOfTargetField] at hv
      | jbool b => simp [valueOfTargetField] at hv
      | jobj kvs => simp [valueOfTargetField] at hv

/-- A validated inner value is an object instance validated against the inner
record type. -/
theorem isValidInner_jobj (m : ModelType) (v : JValue) (h : isValidInner m v = true) :
    ∃ kvs, v = JValue.jobj kvs ∧ instValidates kvs m.fields = true := by
  cases v with
  | jobj kvs => exact ⟨kvs, rfl, h⟩
  | jstr s => simp [isValidInner] at h
  | jint n => simp [isValidInner] at h
  | jbool b => simp [isValidInner] at h
  | jlist xs => simp [isValidInner] at h

/-- `fieldsEquiv` is reflexive. -/
theorem fieldsEquiv_refl : ∀ xs : List ModelField, fieldsEquiv xs xs = true := by
  intro xs
  induction xs with
  | nil => rfl
  | cons x xs ih => simp [fieldsEquiv, ih]

/-- The full success path: capability present, non-empty schema, the Schema
Builder succeeds and the client answers with a `BaseModel` instance. -/
theorem build_success (ctx : Ctx) (chat : BoundInvocation → ModelOutput)
    (om : ModelType) (inst : List (String × JValue))
    (hwso : ctx.llm_has_structured_output = true)
    (hne : ctx.output_schema.isEmpty = false)
    (hbuild : build_model_from_schema ctx.output_schema = .ok om)
    (hchat : chat (boundRequest ctx om) = .baseModel inst) :
    build_structured_output ctx chat = (.ok { data := inst }, [boundRequest ctx om]) := by
  simp [build_structured_output, hwso, hne, hbuild, hchat, model_dump]

/-! Claim theorems. -/

/-- C1: with a non-empty Output Schema, `multiple = false`, and the model
invocation returning an instance validated against the target type, the key
sequence (hence the key set) of the mapping returned by
`build_structured_output` equals exactly the field names of the Output
Schema, in order. -/
theorem C1_single_output_keys (ctx : Ctx) (chat : BoundInvocation → ModelOutput)
    (om : ModelType) (inst : List (String × JValue)) (d : Data)
    (hmul : ctx.multiple = false)
    (hbuild : build_model_from_schema ctx.output_schema = .ok om)
    (hchat : chat (boundRequest ctx om) = .baseModel inst)
    (hvalid : instTargetValidates inst (boundRequest ctx om).schema.fields = true)
    (hok : (build_structured_output ctx chat).fst = .ok d) :
    d.data.map Prod.fst = ctx.output_schema.map FieldSpec.name := by
  cases hw : ctx.llm_has_structured_output with
  | false => simp [build_structured_output, hw] at hok
  | true =>
      cases he : ctx.output_schema.isEmpty with
      | true => simp [build_structured_output, hw, he] at hok
      | false =>
          rw [build_success ctx chat om inst hw he hbuild hchat] at hok
          injection hok with hok
          subst hok
          simp only [boundRequest, hmul, if_neg Bool.false_ne_true] at hvalid
          calc inst.map Prod.fst
              = (asTarget om).fields.map TargetField.name :=
                instTargetValidates_keys inst _ hvalid
            _ = om.fields.map ModelField.name := asTarget_names om
            _ = ctx.output_schema.map FieldSpec.name :=
                build_model_from_schema_names _ _ hbuild

/-- C1 witness: the single-Book scenario of the spec. -/
theorem C1_single_output_keys_witness :
    (Data.mk duneInst).data.map Prod.fst = ctxBook.output_schema.map FieldSpec.name :=
  C1_single_output_keys ctxBook chatBook bookModel duneInst (Data.mk duneInst)
    rfl rfl rfl rfl rfl

/-- C2: with a non-empty Output Schema, `multiple = true`, and the model
invocation returning an instance validated against the target (envelope) type,
the returned mapping has exactly one key, `objects`, holding an ordered
sequence of mappings each keyed exactly by the field names of the Output
Schema. -/
theorem C2_multiple_output_shape (ctx : Ctx) (chat : BoundInvocation → ModelOutput)
    (om : ModelType) (inst : List (String × JValue)) (d : Data)
    (hmul : ctx.multiple = true)
    (hbuild : build_model_from_schema ctx.output_schema = .ok om)
    (hchat : chat (boundRequest ctx om) = .baseModel inst)
    (hvalid : instTargetValidates inst (boundRequest ctx om).schema.fields = true)
    (hok : (build_structured_output ctx chat).fst = .ok d) :
    d.data.map Prod.fst = ["objects"] ∧
    ∃ xs, d.data = [("objects", JValue.jlist xs)] ∧
      ∀ v ∈ xs, ∃ kvs, v = JValue.jobj kvs ∧
        kvs.map Prod.fst = ctx.output_schema.map FieldSpec.name := by
  cases hw : ctx.llm_has_structured_output with
  | false => simp [build_structured_output, hw] at hok
  | true =>
      cases he : ctx.output_schema.isEmpty with
      | true => simp [build_structured_output, hw, he] at hok
      | false =>
          rw [build_success ctx chat om inst hw he hbuild hchat] at hok
          injection hok with hok
          subst hok
          simp only [boundRequest, hmul, if_pos rfl, wrapMultiple] at hvalid
          obtain ⟨xs, hinst, hall⟩ :=
            instTargetValidates_single_list inst _ om rfl hvalid
          refine ⟨by rw [hinst]; rfl, xs, hinst, ?_⟩
          intro v hv
          obtain ⟨kvs, hkv, hval⟩ := isValidInner_jobj om v (hall v hv)
          refine ⟨kvs, hkv, ?_⟩
          calc kvs.map Prod.fst
              = om.fields.map ModelField.name := instValidates_keys kvs _ hval
            _ = ctx.output_schema.map FieldSpec.name :=
                build_model_from_schema_names _ _ hbuild

/-- C2 witness: the multiple-Book scenario of the spec. -/
theorem C2_multiple_output_shape_witness :
    (Data.mk objectsInst).data.map Prod.fst = ["objects"] ∧
    ∃ xs, (Data.mk objectsInst).data = [("objects", JValue.jlist xs)] ∧
      ∀ v ∈ xs, ∃ kvs, v = JValue.jobj kvs ∧
        kvs.map Prod.fst = ctxBookMulti.output_schema.map FieldSpec.name :=
  C2_multiple_output_shape ctxBookMulti chatBooks bookModel objectsInst (Data.mk objectsInst)
    rfl rfl rfl rfl rfl

/-- C3: when the model client lacks the `with_structured_output` capability,
`build_structured_output` fails with the capability error (the Python
`TypeError`) and the invocation trace is empty: no model invocation or network
call occurs and no output is produced. -/
theorem C3_capability_error (ctx : Ctx) (chat : BoundInvocation → ModelOutput)
    (h : ctx.llm_has_structured_output = false) :
    (build_structured_output ctx chat).fst =
      .error (.typeError "Language model does not support structured output.") ∧
    (build_structured_output ctx chat).snd = [] := by
  constructor <;> simp [build_structured_output, h]

/-- C3 witness: a concrete client without the capability. -/
theorem C3_capability_error_witness :
    (build_structured_output ctxNoCap chatNone).fst =
      .error (.typeError "Language model does not support structured output.") ∧
    (build_structured_output ctxNoCap chatNone).snd = [] :=
  C3_capability_error ctxNoCap chatNone rfl

/-- C4 counterexample: at an invocation whose Output Schema is empty but whose
model client also lacks the structured-output capability, the operation does
not fail with a validation error (`ValueError`); it fails with the capability
error (`TypeError`). -/
theorem C4_empty_schema_counterexample :
    ctxNoCap.output_schema = [] ∧
    isValueError (build_structured_output ctxNoCap chatNone).fst = false ∧
    (build_structured_output ctxNoCap chatNone).fst =
      .error (.typeError "Language model does not support structured output.") :=
  ⟨rfl, rfl, rfl⟩

/-- C4 amended: when the model client has the structured-output capability and
the Output Schema is empty, `build_structured_output` fails with the
validation error (`ValueError`) before any schema synthesis, and the model is
never invoked (empty trace). -/
theorem C4_empty_schema_error (ctx : Ctx) (chat : BoundInvocation → ModelOutput)
    (hwso : ctx.llm_has_structured_output = true)
    (hempty : ctx.output_schema = []) :
    (build_structured_output ctx chat).fst =
      .error (.valueError "Output schema cannot be empty") ∧
    (build_structured_output ctx chat).snd = [] := by
  constructor <;> simp [build_structured_output, hwso, hempty]

/-- C4 witness: capability present, empty schema. -/
theorem C4_empty_schema_error_witness :
    (build_structured_output ctxEmptyCap chatNone).fst =
      .error (.valueError "Output schema cannot be empty") ∧
    (build_structured_output ctxEmptyCap chatNone).snd = [] :=
  C4_empty_schema_error ctxEmptyCap chatNone rfl rfl

/-- C5: once the checks pass and the Schema Builder succeeds, exactly one
request is issued; when `multiple = true` its target type is the outer record
type named after `schema_name` with the single sequence-valued field `objects`
of the inner type, described as "A list of {schema_name}."; when
`multiple = false` the target type is the runtime record type itself. -/
theorem C5_target_type (ctx : Ctx) (chat : BoundInvocation → ModelOutput)
    (om : ModelType)
    (hwso : ctx.llm_has_structured_output = true)
    (hne : ctx.output_schema.isEmpty = false)
    (hbuild : build_model_from_schema ctx.output_schema = .ok om) :
    (build_structured_output ctx chat).snd = [boundRequest ctx om] ∧
    (ctx.multiple = true →
      (boundRequest ctx om).schema =
        { name := ctx.schema_name,
          fields := [{ name := "objects",
                       description := "A list of " ++ ctx.schema_name ++ ".",
                       ty := .listOfModel om }] }) ∧
    (ctx.multiple = false → (boundRequest ctx om).schema = asTarget om) := by
  refine ⟨?_, ?_, ?_⟩
  · simp only [build_structured_output, hwso, hne, hbuild]
    cases hc : chat (boundRequest ctx om) <;> simp [hc]
  · intro hm; simp [boundRequest, hm, wrapMultiple]
  · intro hm; simp [boundRequest, hm]

/-- C5 witness: the multiple-Book scenario. -/
theorem C5_target_type_witness :
    (build_structured_output ctxBookMulti chatBooks).snd = [boundRequest ctxBookMulti bookModel] ∧
    (ctxBookMulti.multiple = true →
      (boundRequest ctxBookMulti bookModel).schema =
        { name := ctxBookMulti.schema_name,
          fields := [{ name := "objects",
                       description := "A list of " ++ ctxBookMulti.schema_name ++ ".",
                       ty := .listOfModel bookModel }] }) ∧
    (ctxBookMulti.multiple = false →
      (boundRequest ctxBookMulti bookModel).schema = asTarget bookModel) :=
  C5_target_type ctxBookMulti chatBooks bookModel rfl rfl rfl

/-- C6: once the invocation is reached, a result that is not a `BaseModel`
instance makes `build_structured_output` fail with the explicit shape error
(no coercion is attempted), while a `BaseModel` instance is returned flattened
to its field-name-to-value mapping. -/
theorem C6_basemodel_check (ctx : Ctx) (chat : BoundInvocation → ModelOutput)
    (om : ModelType)
    (hwso : ctx.llm_has_structured_output = true)
    (hne : ctx.output_schema.isEmpty = false)
    (hbuild : build_model_from_schema ctx.output_schema = .ok om) :
    (∀ v, chat (boundRequest ctx om) = .raw v →
      (build_structured_output ctx chat).fst =
        .error (.valueError "Output is not a BaseModel.")) ∧
    (∀ inst, chat (boundRequest ctx om) = .baseModel inst →
      (build_structured_output ctx chat).fst = .ok { data := model_dump inst }) := by
  constructor
  · intro v hv
    simp [build_structured_output, hwso, hne, hbuild, hv]
  · intro inst hi
    simp [build_structured_output, hwso, hne, hbuild, hi]

/-- C6 witness: the single-Book scenario. -/
theorem C6_basemodel_check_witness :
    (∀ v, chatBook (boundRequest ctxBook bookModel) = .raw v →
      (build_structured_output ctxBook chatBook).fst =
        .error (.valueError "Output is not a BaseModel.")) ∧
    (∀ inst, chatBook (boundRequest ctxBook bookModel) = .baseModel inst →
      (build_structured_output ctxBook chatBook).fst = .ok { data := model_dump inst }) :=
  C6_basemodel_check ctxBook chatBook bookModel rfl rfl rfl

/-- C7: for every successful invocation, exactly one request was issued, bound
to the target type with `json_schema`-style structured decoding, and its
configuration forwards the host context unchanged: run name equal to the
display name of the node, the project identifier from the project-name
accessor, and the observability callbacks from the callback accessor; the
input text is forwarded as well. -/
theorem C7_invocation_config (ctx : Ctx) (chat : BoundInvocation → ModelOutput)
    (d : Data)
    (hok : (build_structured_output ctx chat).fst = .ok d) :
    ∃ om req, build_model_from_schema ctx.output_schema = .ok om ∧
      (build_structured_output ctx chat).snd = [req] ∧
      req = boundRequest ctx om ∧
      req.method = "json_schema" ∧
      req.config.run_name = ctx.display_name ∧
      req.config.project_name = ctx.project_name ∧
      req.config.callbacks = ctx.callbacks ∧
      req.input_value = ctx.input_value := by
  cases hw : ctx.llm_has_structured_output with
  | false => simp [build_structured_output, hw] at hok
  | true =>
      cases he : ctx.output_schema.isEmpty with
      | true => simp [build_structured_output, hw, he] at hok
      | false =>
          cases hb : build_model_from_schema ctx.output_schema with
          | error e => simp [build_structured_output, hw, he, hb] at hok
          | ok om =>
              refine ⟨om, boundRequest ctx om, rfl, ?_, rfl, rfl, rfl, rfl, rfl, rfl⟩
              simp only [build_structured_output, hw, he, hb]
              cases hc : chat (boundRequest ctx om) <;> simp [hc]

/-- C7 witness: the single-Book scenario succeeds, so its request carries the
forwarded context. -/
theorem C7_invocation_config_witness :
    ∃ om req, build_model_from_schema ctxBook.output_schema = .ok om ∧
      (build_structured_output ctxBook chatBook).snd = [req] ∧
      req = boundRequest ctxBook om ∧
      req.method = "json_schema" ∧
      req.config.run_name = ctxBook.display_name ∧
      req.config.project_name = ctxBook.project_name ∧
      req.config.callbacks = ctxBook.callbacks ∧
      req.input_value = ctxBook.input_value :=
  C7_invocation_config ctxBook chatBook (Data.mk duneInst) rfl

/-- C8: the Schema Builder is a pure transformation: two runs over the same
Field Specification sequence yield structurally equivalent record types. -/
theorem C8_builder_idempotent (s : List FieldSpec) (m₁ m₂ : ModelType)
    (h₁ : build_model_from_schema s = .ok m₁)
    (h₂ : build_model_from_schema s = .ok m₂) :
    structEquiv m₁ m₂ = true := by
  rw [h₁] at h₂
  injection h₂ with h
  subst h
  simp [structEquiv, fieldsEquiv_refl]

/-- C8 witness: the Book schema. -/
theorem C8_builder_idempotent_witness : structEquiv bookModel bookModel = true :=
  C8_builder_idempotent bookSchema bookModel bookModel rfl rfl

/-- C9 counterexample: an invocation with an empty `schema_name` (capability
present, one-field schema, `multiple = true`) does not fail; it proceeds to
issue the model invocation with a target type whose name is the empty string,
and returns an output. -/
theorem C9_empty_name_counterexample :
    ctxEmptyName.schema_name = "" ∧
    ((build_structured_output ctxEmptyName chatEmptyName).snd.map
      fun r => r.schema.name) = [""] ∧
    (build_structured_output ctxEmptyName chatEmptyName).fst =
      .ok { data := [("objects", JValue.jlist [])] } :=
  ⟨rfl, rfl, rfl⟩

/-- C9 amended: `schema_name` is never validated for non-emptiness: an
invocation with an empty `schema_name` proceeds, and when `multiple = true`
the envelope type is built with the empty name (when `multiple = false` the
name is unused). -/
theorem C9_schema_name_unvalidated (ctx : Ctx) (chat : BoundInvocation → ModelOutput)
    (om : ModelType)
    (hwso : ctx.llm_has_structured_output = true)
    (hne : ctx.output_schema.isEmpty = false)
    (hbuild : build_model_from_schema ctx.output_schema = .ok om)
    (hname : ctx.schema_name = "")
    (hmul : ctx.multiple = true) :
    (build_structured_output ctx chat).snd = [boundRequest ctx om] ∧
    (boundRequest ctx om).schema.name = "" := by
  constructor
  · simp only [build_structured_output, hwso, hne, hbuild]
    cases hc : chat (boundRequest ctx om) <;> simp [hc]
  · simp [boundRequest, hmul, wrapMultiple, hname]

/-- C9 amended witness: the empty-name scenario. -/
theorem C9_schema_name_unvalidated_witness :
    (build_structured_output ctxEmptyName chatEmptyName).snd =
      [boundRequest ctxEmptyName titleModel] ∧
    (boundRequest ctxEmptyName titleModel).schema.name = "" :=
  C9_schema_name_unvalidated ctxEmptyName chatEmptyName titleModel rfl rfl rfl rfl rfl

/-- C10: the capability check strictly precedes the schema-emptiness check:
with the capability absent and an empty schema the raised error is the
capability error (`TypeError`), and a `ValueError` can only be raised once the
capability check has passed. -/
theorem C10_check_order (ctx : Ctx) (chat : BoundInvocation → ModelOutput) :
    (ctx.llm_has_structured_output = false → ctx.output_schema = [] →
      (build_structured_output ctx chat).fst =
        .error (.typeError "Language model does not support structured output.")) ∧
    (∀ msg, (build_structured_output ctx chat).fst = .error (.valueError msg) →
      ctx.llm_has_structured_output = true) := by
  constructor
  · intro h _
    simp [build_structured_output, h]
  · intro msg h
    cases hw : ctx.llm_has_structured_output with
    | true => rfl
    | false => simp [build_structured_output, hw] at h

/-- C10 witness: capability absent and empty schema yields the capability
error. -/
theorem C10_check_order_witness :
    (build_structured_output ctxNoCap chatNone).fst =
      .error (.typeError "Language model does not support structured output.") :=
  (C10_check_order ctxNoCap chatNone).1 rfl rfl

end StructuredOutput
